import Mathlib

/-!
Shallow embedding of the modman v2 artifact-acquisition core
(`src/modman/api.py`, `src/modman/lib.py`, `src/modman/models.py`).

Time is modelled as an integer timestamp: `datetime.now()` becomes an
explicit `now : Int` argument at each call that reads the clock, and
`timedelta` addition becomes integer addition.  Network responses are
modelled as explicit inputs (a mocked page-fetch function for the search
iterator, a header record for the API client, a per-attempt digest oracle
for the download worker).
-/

namespace Modman

/-- Embeds `Ratelimiter` (`api.py` lines 28-65): fields `limit`,
`remaining`, `reset` and the `last_hit` timestamp. -/
structure Ratelimiter where
  limit : Int
  remaining : Int
  reset : Int
  last_hit : Int
deriving DecidableEq, Repr

/-- Embeds the `reset_at` property (`api.py` 40-43):
`last_hit + timedelta(seconds=reset)`. -/
def Ratelimiter.reset_at (r : Ratelimiter) : Int :=
  r.last_hit + r.reset

/-- Embeds `Ratelimiter.sync` (`api.py` 45-61): each field is overwritten
only when the corresponding argument is `>= 0`; `last_hit` is stamped with
the current time.  The `now` argument stands for `datetime.now()`. -/
def Ratelimiter.sync (r : Ratelimiter) (limit remaining reset : Int) (now : Int) :
    Ratelimiter where
  limit := if limit ≥ 0 then limit else r.limit
  remaining := if remaining ≥ 0 then remaining else r.remaining
  reset := if reset ≥ 0 then reset else r.reset
  last_hit := now

/-- Embeds `Ratelimiter.are_ratelimited` (`api.py` 63-65):
`self.reset_at >= datetime.now() and self.remaining == 0`. -/
def Ratelimiter.are_ratelimited (r : Ratelimiter) (now : Int) : Bool :=
  decide (r.reset_at ≥ now) && decide (r.remaining = 0)

/-- The three `X-Ratelimit-*` response headers; `none` is a missing
header.  `headers.get(name, -1)` in `api.py` 214-218 becomes
`Option.getD · (-1)`. -/
structure RatelimitHeaders where
  limit : Option Int
  remaining : Option Int
  reset : Option Int
deriving DecidableEq, Repr

/-- Outcome of `ModrinthAPI._get`: either the pre-flight `Ratelimited`
error carrying the reset time, or a completed request. -/
inductive GetOut where
  | ratelimited (untilTime : Int)
  | ok
deriving DecidableEq, Repr

/-- Embeds `ModrinthAPI._get` (`api.py` 209-219) restricted to its effect
on the shared ratelimiter.  `nowCheck` is the clock when
`are_ratelimited` runs, `nowSync` the clock at the `sync` after the
response; `h` holds the ratelimit headers of the response the transport
returned (the body and status code never touch the tracker, and
`raise_for_status` in `_get_json` happens only after `_get` returns). -/
def modrinthGet (r : Ratelimiter) (nowCheck nowSync : Int) (h : RatelimitHeaders) :
    Ratelimiter × GetOut :=
  if r.are_ratelimited nowCheck then
    (r, .ratelimited r.reset_at)
  else
    (r.sync (h.limit.getD (-1)) (h.remaining.getD (-1)) (h.reset.getD (-1)) nowSync, .ok)

/-- Embeds the `SearchResult` model (`models.py` 152-164) restricted to
the fields the iterator logic reads: `hits` (search hits, identified here
by opaque natural-number ids) and `total_hits`.  `offset` and `limit`
are echoes of the request and are never read by the iterator. -/
structure SearchResult where
  hits : List Nat
  total_hits : Nat
deriving DecidableEq, Repr

/-- Embeds the mutable state of `SearchIterator` (`api.py` 76-101).
`query`, `facets` and `index` are fixed request parameters absorbed into
the page-fetch function; `ratelimiter_limit` is `client.ratelimiter.limit`.
The request of `__next__` is determined by `_page` alone (offset is
`limit * _page`), so the mocked backend is a function from page index to
response, `none` standing for an `HTTPStatusError` from `_get_json`. -/
structure SearchIterator where
  limit : Nat
  ratelimiter_limit : Nat
  _page : Nat
  page_cache : Nat → Option SearchResult
  total_hits : Nat

/-- Outcome of one `SearchIterator.__next__` call: a yielded page,
`StopIteration`, or the fatal too-broad `RuntimeError`.

The predicted page count `ph = parsed.total_hits / self.limit` is
Python true division; it is represented exactly as the rational
`mkRat total_hits limit` (the constructor validates `1 <= limit`, so
the divisor is never zero). -/
inductive NextOut where
  | yielded (r : SearchResult)
  | stop
  | tooBroadErr
deriving DecidableEq, Repr

/-- Embeds `SearchIterator.__next__` (`api.py` 125-155) as a state
transformer.  Faithful ordering of effects: a failed fetch stops with no
state change; the budget check `total_hits / limit > ratelimiter.limit`
(Python true division, exact here as a rational) raises before caching;
otherwise `total_hits` is refined, the page cached, the cursor advanced,
and only then are the empty/partial terminal checks applied — a terminal
page is cached but not yielded.  The self-throttle `time.sleep` has no
effect on the state and is omitted. -/
def SearchIterator.next (s : SearchIterator) (fetch : Nat → Option SearchResult) :
    SearchIterator × NextOut :=
  match fetch s._page with
  | none => (s, .stop)
  | some parsed =>
    if mkRat (parsed.total_hits : Int) s.limit > ((s.ratelimiter_limit : Nat) : ℚ) then
      (s, .tooBroadErr)
    else
      let s' : SearchIterator :=
        { s with
          total_hits := parsed.total_hits
          page_cache := fun k => if k = s._page then some parsed else s.page_cache k
          _page := s._page + 1 }
      if parsed.hits = [] then (s', .stop)
      else if parsed.hits.length < s.limit then (s', .stop)
      else (s', .yielded parsed)

/-- Outcome of `SearchIterator.page` (`api.py` 157-176): the page, or the
`IndexError("Page index out of range")`, or the propagated too-broad
`RuntimeError`. -/
inductive PageOut where
  | ok (r : SearchResult)
  | indexError
  | tooBroadErr
deriving DecidableEq, Repr

/-- Embeds `SearchIterator.page` (`api.py` 157-176): cache hit returns
directly; otherwise the cursor is repointed to `number`, `next` runs, and
the `finally` block restores the original cursor on every path;
`StopIteration` is converted to `IndexError`. -/
def SearchIterator.page (s : SearchIterator) (fetch : Nat → Option SearchResult)
    (number : Nat) : SearchIterator × PageOut :=
  match s.page_cache number with
  | some cached => (s, .ok cached)
  | none =>
    let original := s._page
    match SearchIterator.next { s with _page := number } fetch with
    | (s', .yielded r) => ({ s' with _page := original }, .ok r)
    | (s', .stop) => ({ s' with _page := original }, .indexError)
    | (s', .tooBroadErr) => ({ s' with _page := original }, .tooBroadErr)

/-- Outcome of `SearchIterator.all`: the concatenated hits, the
propagated too-broad error, or fuel exhaustion (not a behaviour of the
code — the recursion is bounded by the supplied fuel). -/
inductive AllOut where
  | ok (hits : List Nat)
  | tooBroadErr
  | fuelOut
deriving DecidableEq, Repr

/-- The `for page in self: r.extend(page.hits)` loop of
`SearchIterator.all` (`api.py` 183-188): accumulate the hits of each
yielded page; `StopIteration` ends the loop with the accumulator. -/
def SearchIterator.allAux (fetch : Nat → Option SearchResult) :
    Nat → SearchIterator → List Nat → AllOut
  | 0, _, _ => .fuelOut
  | fuel + 1, s, acc =>
    match SearchIterator.next s fetch with
    | (s', .yielded r) => SearchIterator.allAux fetch fuel s' (acc ++ r.hits)
    | (_, .stop) => .ok acc
    | (_, .tooBroadErr) => .tooBroadErr

/-- Embeds `SearchIterator.all` (`api.py` 183-188). -/
def SearchIterator.all (s : SearchIterator) (fetch : Nat → Option SearchResult)
    (fuel : Nat) : AllOut :=
  SearchIterator.allAux fetch fuel s []

/-- Embeds the state of `DownloadThread` (`lib.py` 35-50) relevant to the
retry loop: `hashes` is the expected sha512 hexdigest (`None` when no
`VersionFile.Hashes` was supplied) and `success` is the result flag,
initialised to `False` by `__init__`. -/
structure DownloadThread where
  hashes : Option String
  success : Bool
deriving DecidableEq, Repr

/-- `DownloadThread.__init__` (`lib.py` 36-50): stores the expected hash
and sets `self.success = False`. -/
def DownloadThread.init (hashes : Option String) : DownloadThread where
  hashes := hashes
  success := false

/-- Terminal outcome of `DownloadThread.run`: the method returns, or it
raises the `RuntimeError` for three consecutive hash mismatches. -/
inductive RunOut where
  | completed
  | integrityError
deriving DecidableEq, Repr

/-- The `for i in range(3)` retry loop of `DownloadThread.run`
(`lib.py` 64-84).  `digest i` is the sha512 hexdigest of the bytes
streamed on attempt `i` (streaming and incremental hashing collapse to
the resulting digest; each iteration performs exactly one streaming
attempt, counted in the first component).  `fuel` counts the remaining
iterations of `range(3)`, so the attempt index is `3 - fuel`.  With no
expected hash the first attempt is accepted unverified (`break`); a
mismatch `continue`s; exhausting the range hits the `for`-`else` and
raises. -/
def downloadAttempts (digest : Nat → String) (hashes : Option String) :
    Nat → Nat → Nat × RunOut
  | 0, count => (count, .integrityError)
  | fuel + 1, count =>
    match hashes with
    | none => (count + 1, .completed)
    | some expected =>
      if digest (3 - (fuel + 1)) = expected then (count + 1, .completed)
      else downloadAttempts digest hashes fuel (count + 1)

/-- Embeds `DownloadThread.run` (`lib.py` 52-84), assuming the metadata
`HEAD` probe succeeded (its failure propagates before the loop and is
outside this claim).  Returns the thread state after `run` together with
the number of streaming attempts and the outcome.  `run` never assigns
`self.success`, so the state is returned unchanged. -/
def DownloadThread.run (t : DownloadThread) (digest : Nat → String) :
    DownloadThread × Nat × RunOut :=
  (t, downloadAttempts digest t.hashes 3 0)

/-- Embeds `VersionType` (`models.py` 296-313): a plain `enum.Enum` with
members `RELEASE`, `BETA`, `ALPHA`.  It defines `__int__` (alpha 0,
beta 1, release 2) but no ordering methods, so member equality works
while `<`/`>` between distinct members raises `TypeError` in Python. -/
inductive VersionType where
  | RELEASE
  | BETA
  | ALPHA
deriving DecidableEq, Repr

/-- `VersionType.__int__` (`models.py` 312-313). -/
def VersionType.toInt : VersionType → Int
  | .ALPHA => 0
  | .BETA => 1
  | .RELEASE => 2

/-- Embeds `Version` (`models.py` 357-420) restricted to the fields its
comparison methods read: `version_type`, `date_published` (an aware
datetime, modelled as an integer timestamp) and `id`. -/
structure Version where
  version_type : VersionType
  date_published : Int
  id : String
deriving DecidableEq, Repr

/-- Embeds `Version.__gt__` (`models.py` 410-411):
`(self.version_type, self.date_published) > (other.version_type,
other.date_published)`.  CPython tuple comparison first locates the
first unequal component; when the `version_type`s differ it evaluates
`VersionType > VersionType`, which raises `TypeError` because the plain
`enum.Enum` has no order (`none` here); when they are equal it compares
the `date_published` datetimes. -/
def Version.gtCmp (a b : Version) : Option Bool :=
  if a.version_type = b.version_type then
    some (decide (b.date_published < a.date_published))
  else
    none

/-- A keyword-argument value of `ModrinthAPI.construct_facets`
(`api.py` 232: `**kwargs: str | int`). -/
inductive FacetValue where
  | str (s : String)
  | int (n : Int)
deriving DecidableEq, Repr

/-- The `ops` table of `construct_facets` (`api.py` 253). -/
def facetOps : List (String × String) :=
  [("gt", ">"), ("lt", "<"), ("ne", "!="), ("eq", ":"), ("gte", ">="), ("lte", "<=")]

/-- Whether the two-character separator `__` occurs in `s` at index `i`. -/
def hasSepAt (s : List Char) (i : Nat) : Bool :=
  ((s.drop i).take 2) == ['_', '_']

/-- Index of the last occurrence of `__` in `s`, if any. -/
def lastSepIdx (s : List Char) : Option Nat :=
  ((List.range (s.length + 1)).filter (hasSepAt s)).getLast?

/-- `key.rsplit("__", 1)` when it yields two parts: split at the last
occurrence of `__`. -/
def rsplitSep (key : String) : Option (String × String) :=
  match lastSepIdx key.data with
  | none => none
  | some i => some (String.mk (key.data.take i), String.mk (key.data.drop (i + 2)))

/-- `api.py` 256-259: `field, op = key.rsplit("__", 1)`, with the
`ValueError` of a separator-free key caught and mapped to
`(key, "eq")`. -/
def splitKey (key : String) : String × String :=
  match rsplitSep key with
  | none => (key, ("eq"))
  | some fieldOp => fieldOp

/-- `api.py` 260-261: `mapping.setdefault(field, [])` followed by
`mapping[field].append(...)` on an insertion-ordered dict, modelled as an
association list. -/
def addEntry (m : List (String × List (String × FacetValue))) (field : String)
    (e : String × FacetValue) : List (String × List (String × FacetValue)) :=
  if (List.lookup field m).isSome then
    m.map (fun p => if p.1 == field then (p.1, p.2 ++ [e]) else p)
  else
    m ++ [(field, [e])]

/-- The first loop of `construct_facets` (`api.py` 255-261).  A `none`
is the `KeyError` raised by `ops[op]` on an unknown operator suffix. -/
def buildMapping : List (String × FacetValue) →
    List (String × List (String × FacetValue)) →
    Option (List (String × List (String × FacetValue)))
  | [], m => some m
  | (key, value) :: rest, m =>
    match List.lookup (splitKey key).2 facetOps with
    | none => none
    | some op => buildMapping rest (addEntry m (splitKey key).1 (op, value))

/-- One `"".join([key, *value])` of the second loop (`api.py` 267).
`str.join` raises `TypeError` when handed a non-`str` element, so an
integer facet value is a `none`. -/
def joinFacet (field : String) (e : String × FacetValue) : Option String :=
  match e.2 with
  | .str s => some (field ++ e.1 ++ s)
  | .int _ => none

/-- Embeds `ModrinthAPI.construct_facets` (`api.py` 231-269) over the
insertion-ordered keyword arguments.  `none` is a raised `KeyError` or
`TypeError`. -/
def construct_facets (kwargs : List (String × FacetValue)) :
    Option (List (List String)) := do
  let m ← buildMapping kwargs []
  m.mapM (fun p => p.2.mapM (joinFacet p.1))

/-! Concrete fixtures used when evaluating the embedded operations. -/

/-- A cache with no pages, as after `__init__`. -/
def emptyCache : Nat → Option SearchResult := fun _ => none

/-- A mocked backend with three pages for a limit-2 search: two full
pages and a terminal one-hit page, `total_hits = 5`. -/
def fetchThreePages : Nat → Option SearchResult := fun n =>
  if n = 0 then some ⟨[0, 1], 5⟩
  else if n = 1 then some ⟨[2, 3], 5⟩
  else if n = 2 then some ⟨[4], 5⟩
  else none

/-- Iterator state after `SearchIterator.__init__` with `limit=2`,
`offset=0`, against a client whose `ratelimiter.limit` is 300. -/
def iterThree : SearchIterator :=
  { limit := 2, ratelimiter_limit := 300, _page := 0,
    page_cache := emptyCache, total_hits := 9999 }

/-- A mocked backend whose every page reports `total_hits = 100000`. -/
def fetchBroad : Nat → Option SearchResult := fun _ => some ⟨[], 100000⟩

/-- Iterator state with `limit=100` against `ratelimiter.limit = 300`. -/
def iterBroad : SearchIterator :=
  { limit := 100, ratelimiter_limit := 300, _page := 0,
    page_cache := emptyCache, total_hits := 9999 }

/-- A mocked backend where every request fails with `HTTPStatusError`. -/
def fetchNone : Nat → Option SearchResult := fun _ => none

/-- Iterator state whose cursor sits at page 7. -/
def iterSeven : SearchIterator :=
  { limit := 2, ratelimiter_limit := 300, _page := 7,
    page_cache := emptyCache, total_hits := 9999 }

/-- Digest oracle: the streamed bytes hash to the expected value only on
the third attempt (attempt index 2). -/
def digestTwoBad : Nat → String := fun i => if i = 2 then ("aa") else ("ff")

/-- Digest oracle: every attempt streams corrupted bytes. -/
def digestAllBad : Nat → String := fun _ => ("ff")

/-- Claim C1: evaluating `construct_facets` at the spec's concrete
inputs.  The code groups facet strings by field, so
`versions="1.20.1", categories="fabric"` yields one inner list per field,
not the single combined AND-group the docstring and spec show; and
`downloads__gte=100` raises `TypeError` (an `int` handed to
`str.join`), not `[["downloads>=100"]]`. -/
theorem construct_facets_spec_examples_fail :
    construct_facets [(("versions"), .str ("1.20.1")), (("categories"), .str ("fabric"))]
        = some [[("versions:1.20.1")], [("categories:fabric")]] ∧
      construct_facets [(("downloads__gte"), .int 100)] = none := by
  exact ⟨by decide, by decide⟩

/-- Claim C2: comparing a RELEASE version published at time 0 against a
BETA version published later (time 100).  `Version.__gt__` compares the
tuples `(version_type, date_published)`, and because `VersionType` is a
plain `enum.Enum` with no ordering, the comparison of distinct members
raises `TypeError` (`none`) instead of evaluating to `True`. -/
theorem version_gt_release_vs_beta_raises :
    Version.gtCmp ⟨.RELEASE, 0, ("v1")⟩ ⟨.BETA, 100, ("v2")⟩ = none ∧ (0 : Int) < 100 := by
  decide

/-- Claim C3: draining a mocked three-page search (limit 2; pages
`[0,1]`, `[2,3]`, terminal `[4]`, `total_hits = 5`) with `all()`.
`__next__` raises `StopIteration` on the terminal partial page without
yielding it, so `all()` returns only the first two pages' hits and not
the concatenation of all three. -/
theorem all_drops_terminal_page :
    iterThree.all fetchThreePages 10 = .ok ([0, 1] ++ [2, 3]) ∧
      iterThree.all fetchThreePages 10 ≠ .ok ([0, 1] ++ [2, 3] ++ [4]) := by
  exact ⟨by decide, by decide⟩

/-- Claim C4: the download worker with an expected sha512 whose streamed
bytes mismatch on attempts 0 and 1 and match on attempt 2 performs
exactly 3 streaming attempts and returns, and with three consecutive
mismatches it performs 3 attempts and raises — but in both runs the
thread state keeps `success = false`, because `run` never assigns the
flag that `__init__` set to `False`. -/
theorem download_success_flag_never_set :
    (DownloadThread.init (some ("aa"))).run digestTwoBad
        = (⟨some ("aa"), false⟩, 3, .completed) ∧
      (DownloadThread.init (some ("aa"))).run digestAllBad
        = (⟨some ("aa"), false⟩, 3, .integrityError) := by
  exact ⟨by decide, by decide⟩

/-- Claim C5, counterexample: at the boundary instant `now = reset_at`
(state `remaining = 0`, `reset = 5`, `last_hit = 0`, `now = 5`) the code
reports exhaustion (`reset_at >= now` is non-strict), while the claim's
strict condition `now < resetAt` is false, so the claimed equivalence
fails there. -/
theorem are_ratelimited_strict_boundary_counterexample :
    Ratelimiter.are_ratelimited ⟨300, 0, 5, 0⟩ 5 = true ∧
      ¬ ((Ratelimiter.mk 300 0 5 0).remaining = 0 ∧
        (5 : Int) < Ratelimiter.reset_at ⟨300, 0, 5, 0⟩) := by
  decide

/-- Claim C5, amended: `are_ratelimited()` returns true iff
`remaining = 0` and `now ≤ resetAt` (non-strict, matching
`reset_at >= datetime.now()`); in particular a positive `remaining`
yields false regardless of the time. -/
theorem are_ratelimited_iff (r : Ratelimiter) (now : Int) :
    (r.are_ratelimited now = true ↔ (r.remaining = 0 ∧ now ≤ r.reset_at)) ∧
      (0 < r.remaining → r.are_ratelimited now = false) := by
  constructor
  · simp [Ratelimiter.are_ratelimited, ge_iff_le, and_comm]
  · intro h
    simp [Ratelimiter.are_ratelimited, ge_iff_le]
    omega

/-- Witness for the amended C5 at concrete states. -/
theorem are_ratelimited_iff_witness :
    Ratelimiter.are_ratelimited ⟨300, 0, 5, 0⟩ 3 = true ∧
      Ratelimiter.are_ratelimited ⟨300, 7, 5, 0⟩ 3 = false :=
  ⟨((are_ratelimited_iff ⟨300, 0, 5, 0⟩ 3).1).mpr (by decide),
    (are_ratelimited_iff ⟨300, 7, 5, 0⟩ 3).2 (by decide)⟩

/-- Claim C6: whenever a fetched page reports `total_hits` with
`total_hits / limit` exceeding the client ratelimiter's limit, `__next__`
raises the fatal search-too-broad error instead of returning the page,
and leaves the iterator state untouched. -/
theorem next_raises_when_search_too_broad (fetch : Nat → Option SearchResult)
    (s : SearchIterator) (r : SearchResult)
    (hfetch : fetch s._page = some r)
    (hbudget : mkRat (r.total_hits : Int) s.limit > ((s.ratelimiter_limit : Nat) : ℚ)) :
    s.next fetch = (s, .tooBroadErr) := by
  unfold SearchIterator.next
  rw [hfetch]
  dsimp only
  rw [if_pos hbudget]

/-- Witness for C6 at the spec's numbers: `total_hits = 100000`,
`limit = 100`, `ratelimiter.limit = 300` (predicting 1000 requests). -/
theorem next_raises_when_search_too_broad_witness :
    iterBroad.next fetchBroad = (iterBroad, .tooBroadErr) :=
  next_raises_when_search_too_broad fetchBroad iterBroad ⟨[], 100000⟩ rfl (by decide)

/-- Claim C7: when the tracker is exhausted at call time, `_get` fails
with `Ratelimited(reset_at)` and returns the tracker unchanged, for every
possible response — the decision depends only on the pre-flight check.
Otherwise the call completes and the tracker is synchronized from the
three `X-Ratelimit-*` headers with missing headers passed as `-1`, so a
missing header leaves its field untouched while `last_hit` is stamped. -/
theorem get_preflight_and_sync (r : Ratelimiter) (nowCheck nowSync : Int)
    (h : RatelimitHeaders) :
    (r.are_ratelimited nowCheck = true →
      modrinthGet r nowCheck nowSync h = (r, .ratelimited r.reset_at)) ∧
    (r.are_ratelimited nowCheck = false →
      (modrinthGet r nowCheck nowSync h).2 = .ok ∧
      (modrinthGet r nowCheck nowSync h).1 =
        r.sync (h.limit.getD (-1)) (h.remaining.getD (-1)) (h.reset.getD (-1)) nowSync ∧
      (h.limit = none → (modrinthGet r nowCheck nowSync h).1.limit = r.limit) ∧
      (h.remaining = none → (modrinthGet r nowCheck nowSync h).1.remaining = r.remaining) ∧
      (h.reset = none → (modrinthGet r nowCheck nowSync h).1.reset = r.reset) ∧
      (modrinthGet r nowCheck nowSync h).1.last_hit = nowSync) := by
  constructor
  · intro hex
    simp [modrinthGet, hex]
  · intro hex
    refine ⟨by simp [modrinthGet, hex], by simp [modrinthGet, hex], ?_, ?_, ?_,
      by simp [modrinthGet, hex, Ratelimiter.sync]⟩
    · intro hnone
      simp [modrinthGet, hex, hnone, Ratelimiter.sync]
    · intro hnone
      simp [modrinthGet, hex, hnone, Ratelimiter.sync]
    · intro hnone
      simp [modrinthGet, hex, hnone, Ratelimiter.sync]

/-- Witness for C7: an exhausted tracker fails fast and is unchanged; a
non-exhausted tracker keeps `remaining` when its header is missing. -/
theorem get_preflight_and_sync_witness :
    modrinthGet ⟨300, 0, 10, 0⟩ 5 6 ⟨some 1, some 2, some 3⟩
        = (⟨300, 0, 10, 0⟩, .ratelimited (Ratelimiter.reset_at ⟨300, 0, 10, 0⟩)) ∧
      (modrinthGet ⟨300, 5, 10, 0⟩ 99 42 ⟨some 250, none, some 30⟩).1.remaining = 5 :=
  ⟨(get_preflight_and_sync ⟨300, 0, 10, 0⟩ 5 6 ⟨some 1, some 2, some 3⟩).1 (by decide),
    ((get_preflight_and_sync ⟨300, 5, 10, 0⟩ 99 42 ⟨some 250, none, some 30⟩).2
      (by decide)).2.2.2.1 rfl⟩

/-- Claim C8: `page(n)` always hands back an iterator whose cursor equals
its pre-call value (the `finally` block restores it on every path, in
particular on success), and when the underlying `__next__` reports
end-of-sequence on a cache miss, `page(n)` raises the
page-index-out-of-range error. -/
theorem page_restores_cursor_and_index_error (s : SearchIterator)
    (fetch : Nat → Option SearchResult) (n : Nat) :
    ((s.page fetch n).1._page = s._page) ∧
    (s.page_cache n = none →
      (SearchIterator.next { s with _page := n } fetch).2 = .stop →
      (s.page fetch n).2 = .indexError) := by
  constructor
  · unfold SearchIterator.page
    cases hc : s.page_cache n
    · rcases hnext : SearchIterator.next { s with _page := n } fetch with ⟨s', out⟩
      cases out <;> simp [hnext]
    · simp
  · intro hc hstop
    unfold SearchIterator.page
    rw [hc]
    rcases hnext : SearchIterator.next { s with _page := n } fetch with ⟨s', out⟩
    rw [hnext] at hstop
    cases out
    · exact absurd hstop (by simp)
    · simp
    · exact absurd hstop (by simp)

/-- Witness for C8: every fetch failing (`HTTPStatusError`), cursor at
page 7, `page(0)` raises the index error and the cursor stays 7. -/
theorem page_restores_cursor_witness :
    (iterSeven.page fetchNone 0).1._page = 7 ∧
      (iterSeven.page fetchNone 0).2 = .indexError :=
  ⟨(page_restores_cursor_and_index_error iterSeven fetchNone 0).1,
    (page_restores_cursor_and_index_error iterSeven fetchNone 0).2 rfl rfl⟩

/-- Claim C9: `sync(limit, remaining, reset)` overwrites each tracked
field exactly when the corresponding argument is non-negative, leaves a
field with a negative argument unchanged, and always stamps `last_hit`
with the current time. -/
theorem sync_fields (r : Ratelimiter) (l m t now : Int) :
    (0 ≤ l → (r.sync l m t now).limit = l) ∧
    (l < 0 → (r.sync l m t now).limit = r.limit) ∧
    (0 ≤ m → (r.sync l m t now).remaining = m) ∧
    (m < 0 → (r.sync l m t now).remaining = r.remaining) ∧
    (0 ≤ t → (r.sync l m t now).reset = t) ∧
    (t < 0 → (r.sync l m t now).reset = r.reset) ∧
    (r.sync l m t now).last_hit = now := by
  unfold Ratelimiter.sync
  refine ⟨?_, ?_, ?_, ?_, ?_, ?_, rfl⟩ <;> intro h <;>
    first
      | exact if_pos (by omega)
      | exact if_neg (by omega)

/-- Witness for C9: non-negative arguments overwrite, the negative
`remaining` argument leaves the field untouched, `last_hit` stamped. -/
theorem sync_fields_witness :
    (Ratelimiter.sync ⟨1, 2, 3, 4⟩ 10 (-1) 30 99).limit = 10 ∧
      (Ratelimiter.sync ⟨1, 2, 3, 4⟩ 10 (-1) 30 99).remaining = 2 ∧
      (Ratelimiter.sync ⟨1, 2, 3, 4⟩ 10 (-1) 30 99).reset = 30 ∧
      (Ratelimiter.sync ⟨1, 2, 3, 4⟩ 10 (-1) 30 99).last_hit = 99 :=
  ⟨(sync_fields ⟨1, 2, 3, 4⟩ 10 (-1) 30 99).1 (by decide),
    (sync_fields ⟨1, 2, 3, 4⟩ 10 (-1) 30 99).2.2.2.1 (by decide),
    (sync_fields ⟨1, 2, 3, 4⟩ 10 (-1) 30 99).2.2.2.2.1 (by decide),
    (sync_fields ⟨1, 2, 3, 4⟩ 10 (-1) 30 99).2.2.2.2.2.2⟩

/-- Claim C10: `page(n)` on an uncached index whose fetch yields the
terminal partial-or-empty page raises the index error, yet has already
inserted the fetched page into the cache, so an immediate repeat of
`page(n)` returns that page from the cache instead of raising. -/
theorem page_uncached_terminal_caches_then_raises
    (s : SearchIterator) (fetch : Nat → Option SearchResult) (n : Nat) (r : SearchResult)
    (hc : s.page_cache n = none)
    (hf : fetch n = some r)
    (hb : ¬ mkRat (r.total_hits : Int) s.limit > ((s.ratelimiter_limit : Nat) : ℚ))
    (hterm : r.hits = [] ∨ r.hits.length < s.limit) :
    (s.page fetch n).2 = .indexError ∧
    (s.page fetch n).1.page_cache n = some r ∧
    ((s.page fetch n).1.page fetch n).2 = .ok r := by
  have hnext : SearchIterator.next { s with _page := n } fetch =
      ({ s with total_hits := r.total_hits,
                page_cache := fun k => if k = n then some r else s.page_cache k,
                _page := n + 1 }, .stop) := by
    unfold SearchIterator.next
    dsimp only
    rw [hf]
    dsimp only
    rw [if_neg hb]
    rcases hterm with he | hlen
    · rw [if_pos he]
    · by_cases he : r.hits = []
      · rw [if_pos he]
      · rw [if_neg he, if_pos hlen]
  have hpage : s.page fetch n =
      ({ s with total_hits := r.total_hits,
                page_cache := fun k => if k = n then some r else s.page_cache k,
                _page := s._page }, .indexError) := by
    unfold SearchIterator.page
    rw [hc, hnext]
  refine ⟨by rw [hpage], by rw [hpage]; simp, ?_⟩
  rw [hpage]
  unfold SearchIterator.page
  simp

/-- Witness for C10: the three-page fixture, asking directly for the
uncached terminal page 2. -/
theorem page_uncached_terminal_witness :
    (iterThree.page fetchThreePages 2).2 = .indexError ∧
      (iterThree.page fetchThreePages 2).1.page_cache 2 = some ⟨[4], 5⟩ ∧
      ((iterThree.page fetchThreePages 2).1.page fetchThreePages 2).2 = .ok ⟨[4], 5⟩ :=
  page_uncached_terminal_caches_then_raises iterThree fetchThreePages 2 ⟨[4], 5⟩
    rfl rfl (by decide) (Or.inr (by decide))

end Modman
